import Mathlib

/-!
Shallow embedding of `src/stp2stl/cli.py`, a CLI that batch-converts STEP
CAD files to STL meshes via FreeCAD.  External library calls (FreeCAD,
Import, MeshPart, glob, os.path) are modelled by environments of
`Except`-valued results; the orchestration logic of the script is
translated into Lean functions that additionally record a trace of the
external calls they perform, so that properties about call order,
parameters and cleanup can be stated and proved.

Python floats are modelled by rationals: the script only compares scale
factors for exact (in)equality with `1.0` and multiplies by exact literal
constants, so no rounding behaviour is involved in any claim.
-/

namespace Stp2Stl

/-- Python exceptions, as far as the script distinguishes them: the
`RuntimeError` and `ValueError` it raises itself, and arbitrary exceptions
raised by the external FreeCAD library calls. -/
inductive PyExc where
  | runtimeError (msg : String)
  | valueError (msg : String)
  | libraryError (msg : String)
  deriving DecidableEq, Repr

/-- `FreeCAD.Base.Matrix(a11, a12, ..., a44)`: a 4x4 matrix given by its 16
entries in row-major order, exactly as the positional constructor in
`cli.py` line 95 supplies them. -/
structure Matrix where
  a11 : ℚ
  a12 : ℚ
  a13 : ℚ
  a14 : ℚ
  a21 : ℚ
  a22 : ℚ
  a23 : ℚ
  a24 : ℚ
  a31 : ℚ
  a32 : ℚ
  a33 : ℚ
  a34 : ℚ
  a41 : ℚ
  a42 : ℚ
  a43 : ℚ
  a44 : ℚ
  deriving DecidableEq, Repr

/-- A FreeCAD shape: either a shape imported from a document object
(abstract, identified by an id chosen by the environment) or the result of
`shape.transformed(matrix)`. -/
inductive Shape where
  | base (id : Nat)
  | transformed (s : Shape) (m : Matrix)
  deriving DecidableEq, Repr

/-- A document object as used by the script: only its `.Shape` attribute is
read. -/
structure Object where
  Shape : Shape
  deriving DecidableEq, Repr

/-- A FreeCAD document as used by the script: only its `.Name` attribute is
read (its `.Objects` list is supplied by the environment after
`Import.insert`). -/
structure Document where
  Name : String
  deriving DecidableEq, Repr

/-- A mesh object returned by `MeshPart.meshFromShape`, abstract. -/
abbrev Mesh := Nat

/-- Python values appearing as keyword arguments of
`MeshPart.meshFromShape`. -/
inductive PyVal where
  | float (q : ℚ)
  | int (n : ℤ)
  | bool (b : Bool)
  | str (s : String)
  | shape (s : Shape)
  deriving DecidableEq, Repr

/-- Trace events: one per external call the conversion function performs,
plus the `logging.exception` call of its error handler. -/
inductive Event where
  | newDocumentCall
  | insertCall (file : String) (docName : String)
  | transformedCall (s : Shape) (m : Matrix)
  | meshFromShapeCall (kwargs : List (String × PyVal))
  | writeCall (m : Mesh) (path : String)
  | closeDocumentCall (name : String)
  | logExceptionCall (msg : String)
  deriving DecidableEq, Repr

/-- Environment of external-call results for one invocation of
`convert_step_to_stl`: what `FreeCAD.newDocument()` returns (or raises),
what objects `Import.insert` leaves in the document (or raises), and what
`MeshPart.meshFromShape` and `mesh.write` return (or raise). -/
structure Env where
  newDocument : Except PyExc Document
  insertResult : String → String → Except PyExc (List Object)
  meshResult : List (String × PyVal) → Except PyExc Mesh
  writeResult : Mesh → String → Except PyExc Unit

/-- The mesher settings of the parsed `argparse` namespace that
`convert_step_to_stl` reads. -/
structure Args where
  mesher : String
  linear_deflection : ℚ
  angular_deflection : ℚ
  fineness : ℤ
  second_order : Bool
  optimize : Bool
  allow_quad : Bool
  check_chart : Bool
  deriving DecidableEq, Repr

/-- The float literal `3.141592653589793` of `cli.py` line 101, exact. -/
def piLit : ℚ := 3141592653589793 / 1000000000000000

/-- Models `os.path.splitext(s)[0]` for the paths the script handles:
everything before the last dot, or the whole string when there is no
dot. -/
def splitextRoot (s : String) : String :=
  match s.data.reverse.dropWhile (fun c => c ≠ '.') with
  | [] => s
  | _ :: rest => String.mk rest.reverse

/-- Step 3 of `convert_step_to_stl` (cli.py lines 93-96): when at least one
scale factor differs from `1.0`, build the diagonal scaling matrix and
replace the shape by `shape.transformed(matrix)`; otherwise leave the
shape alone.  Returns the events of the external calls performed and the
shape handed on to meshing. -/
def scaleStep (scale_x scale_y scale_z : ℚ) (shape : Shape) : List Event × Shape :=
  if scale_x ≠ 1 ∨ scale_y ≠ 1 ∨ scale_z ≠ 1 then
    let matrix : Matrix :=
      ⟨scale_x, 0, 0, 0, 0, scale_y, 0, 0, 0, 0, scale_z, 0, 0, 0, 0, 1⟩
    ([Event.transformedCall shape matrix], Shape.transformed shape matrix)
  else
    ([], shape)

/-- Step 4's parameter dispatch (cli.py lines 100-128): the keyword
arguments passed to `MeshPart.meshFromShape` as a function of
`args.mesher`, or the `ValueError` raised for an unknown mesher. -/
def mesherKwargs (args : Args) (shape : Shape) : Except PyExc (List (String × PyVal)) :=
  if args.mesher = "standard" then
    let angular_deflection_rad := args.angular_deflection * (piLit / 180)
    .ok [("Shape", PyVal.shape shape),
         ("LinearDeflection", PyVal.float args.linear_deflection),
         ("AngularDeflection", PyVal.float angular_deflection_rad),
         ("Relative", PyVal.bool true)]
  else if args.mesher = "mefisto" then
    .ok [("Shape", PyVal.shape shape),
         ("Fineness", PyVal.int args.fineness),
         ("SecondOrder", PyVal.bool args.second_order),
         ("Optimize", PyVal.bool args.optimize),
         ("AllowQuad", PyVal.bool args.allow_quad)]
  else if args.mesher = "netgen" then
    .ok [("Shape", PyVal.shape shape),
         ("Tessellator", PyVal.int 1),
         ("Fineness", PyVal.int args.fineness),
         ("SecondOrder", PyVal.bool args.second_order),
         ("Optimize", PyVal.bool args.optimize),
         ("AllowQuad", PyVal.bool args.allow_quad),
         ("CheckChart", PyVal.bool args.check_chart)]
  else
    .error (PyExc.valueError ("Unknown mesher: " ++ args.mesher))

/-- Steps 4-5 of `convert_step_to_stl` (cli.py lines 100-133): when the
dispatch raised `ValueError`, that exception escapes before any call; else
call `MeshPart.meshFromShape`, and on success `mesh_object.write`.
Returns the events performed and success or the escaping exception. -/
def meshStep (env : Env) (output_filepath : String)
    (kwres : Except PyExc (List (String × PyVal))) : List Event × Except PyExc Unit :=
  match kwres with
  | .error e => ([], .error e)
  | .ok kwargs =>
    match env.meshResult kwargs with
    | .error e => ([Event.meshFromShapeCall kwargs], .error e)
    | .ok mesh_object =>
      match env.writeResult mesh_object output_filepath with
      | .error e =>
        ([Event.meshFromShapeCall kwargs, Event.writeCall mesh_object output_filepath],
          .error e)
      | .ok _ =>
        ([Event.meshFromShapeCall kwargs, Event.writeCall mesh_object output_filepath],
          .ok ())

/-- The `try:` block of `convert_step_to_stl` (cli.py lines 79-135):
create the document, import the STEP file into it, check the object list
is non-empty, read the first object's shape, optionally scale, mesh and
export.  Returns the events of the external calls performed, the document
to be closed by the `finally:` block (`None` when `FreeCAD.newDocument`
raised), and either success or the exception that escaped the block. -/
def tryBody (env : Env) (input_filepath : String)
    (scale_x scale_y scale_z : ℚ) (args : Args) :
    List Event × Option Document × Except PyExc Unit :=
  match env.newDocument with
  | .error e => ([Event.newDocumentCall], none, .error e)
  | .ok doc =>
    match env.insertResult input_filepath doc.Name with
    | .error e =>
      ([Event.newDocumentCall, Event.insertCall input_filepath doc.Name], some doc, .error e)
    | .ok objects =>
      match objects with
      | [] =>
        ([Event.newDocumentCall, Event.insertCall input_filepath doc.Name], some doc,
          .error (PyExc.runtimeError "STEP file could not be imported or is empty."))
      | obj :: _ =>
        let sc := scaleStep scale_x scale_y scale_z obj.Shape
        let output_filepath := splitextRoot input_filepath ++ ".stl"
        let ms := meshStep env output_filepath (mesherKwargs args sc.2)
        ([Event.newDocumentCall, Event.insertCall input_filepath doc.Name] ++ sc.1 ++ ms.1,
          some doc, ms.2)

/-- The function `convert_step_to_stl` (cli.py lines 64-145): runs the `try:` block,
then the `except Exception:` handler (which logs and swallows any
exception), then the `finally:` block (which closes the document when one
was created).  Returns the full event trace and the outcome of the call as
seen by `main` (an exception outcome would propagate to the caller). -/
def convert_step_to_stl (env : Env) (input_filepath : String)
    (scale_x scale_y scale_z : ℚ) (args : Args) :
    List Event × Except PyExc Unit :=
  let r := tryBody env input_filepath scale_x scale_y scale_z args
  let evs := r.1
  let docOpt := r.2.1
  let res := r.2.2
  let evs1 :=
    match res with
    | .ok _ => evs
    | .error _ => evs ++ [Event.logExceptionCall ("Could not convert file " ++ input_filepath)]
  match docOpt with
  | some doc => (evs1 ++ [Event.closeDocumentCall doc.Name], Except.ok ())
  | none => (evs1, Except.ok ())

/-- The scaling-related command-line options of the parsed `argparse`
namespace that `main` reads (cli.py lines 233-247); `none` models an
option that was not given. -/
structure CliOpts where
  scale : Option ℚ
  scale_x : Option ℚ
  scale_y : Option ℚ
  scale_z : Option ℚ
  mm_to_m : Bool
  deriving DecidableEq, Repr

/-- The scale-factor computation of `main` (cli.py lines 233-247),
statement by statement: the `mm_to_m` default, then the uniform `--scale`
override, then the per-axis overrides. -/
def determineScales (args : CliOpts) : ℚ × ℚ × ℚ :=
  let base : ℚ := if args.mm_to_m then 1 / 1000 else 1
  let sx := base
  let sy := base
  let sz := base
  let (sx, sy, sz) :=
    match args.scale with
    | some s => (s, s, s)
    | none => (sx, sy, sz)
  let sx := match args.scale_x with | some v => v | none => sx
  let sy := match args.scale_y with | some v => v | none => sy
  let sz := match args.scale_z with | some v => v | none => sz
  (sx, sy, sz)

/-- Filesystem environment for `main`: the results of
`glob.glob(pattern, recursive=True)` and of `os.path.exists`. -/
structure FS where
  glob : String → List String
  pathExists : String → Bool

/-- Whether a pattern contains one of the glob magic characters
(`*`, `?`, `[`); a pattern without them is a literal path, which
`glob.glob` expands to itself when it exists and to nothing otherwise. -/
def hasMagic (s : String) : Bool :=
  s.data.any (fun c => c = '*' || c = '?' || c = '[')

/-- The glob-expansion loop of `main` (cli.py lines 250-255): returns
`all_files` and the list of warnings logged for patterns that matched
nothing. -/
def expandFiles (fs : FS) : List String → List String × List String
  | [] => ([], [])
  | pattern :: rest =>
    let expanded_files := fs.glob pattern
    let warns :=
      if expanded_files.isEmpty then ["No files matched the pattern: " ++ pattern] else []
    let r := expandFiles fs rest
    (expanded_files ++ r.1, warns ++ r.2)

/-- The test `filepath.lower().endswith((".stp", ".step"))` of cli.py
line 266, on the character list of the path (Python's `str.lower` maps
every character to lower case; `endswith` with a tuple succeeds when the
string ends with one of the suffixes). -/
def isStepFile (filepath : String) : Bool :=
  let lower := filepath.data.map Char.toLower
  List.isSuffixOf ".stp".data lower || List.isSuffixOf ".step".data lower

/-- What the per-file loop of `main` does with one path: skip it with a
"File not found" warning, convert it (recording the conversion's event
trace), or skip it with a "not a .stp or .step file" warning. -/
inductive MainAction where
  | warnNotFound (p : String)
  | converted (p : String) (events : List Event)
  | warnNotStep (p : String)
  deriving DecidableEq, Repr

/-- The per-file loop of `main` (cli.py lines 259-276): walks `all_files`,
skipping missing paths and paths without a STEP extension, calling
`convert_step_to_stl` on the rest and incrementing `success_count` after
each call.  Returns the final `success_count` and the list of actions in
loop order. -/
def processFiles (fs : FS) (env : Env) (scale_x scale_y scale_z : ℚ) (args : Args) :
    List String → Nat × List MainAction
  | [] => (0, [])
  | filepath :: rest =>
    if fs.pathExists filepath = false then
      let r := processFiles fs env scale_x scale_y scale_z args rest
      (r.1, MainAction.warnNotFound filepath :: r.2)
    else if isStepFile filepath then
      let tr := convert_step_to_stl env filepath scale_x scale_y scale_z args
      let r := processFiles fs env scale_x scale_y scale_z args rest
      (r.1 + 1, MainAction.converted filepath tr.1 :: r.2)
    else
      let r := processFiles fs env scale_x scale_y scale_z args rest
      (r.1, MainAction.warnNotStep filepath :: r.2)

/-- System environment for the module-level FreeCAD setup (cli.py lines
14-59): the value of the `FREECAD_PATH` environment variable, which paths
are existing directories, and whether the `import FreeCAD` block
succeeds. -/
structure SysEnv where
  freecad_path_env : Option String
  is_dir : String → Bool
  import_ok : Bool

/-- The hardcoded fallback `default_path` of cli.py line 22. -/
def default_path : String := "C:\\Program Files\\FreeCAD 1.0"

/-- The value `FREECAD_ROOT_PATH` as computed by cli.py lines 14-25: the
`FREECAD_PATH` environment variable when it is non-empty and names an
existing directory, otherwise the hardcoded default when that exists,
otherwise nothing.  (An unset or empty variable is falsy in Python.) -/
def resolveFreecadRoot (sys : SysEnv) : Option String :=
  match sys.freecad_path_env with
  | some p =>
    if p ≠ "" ∧ sys.is_dir p = true then some p
    else if sys.is_dir default_path = true then some default_path else none
  | none =>
    if sys.is_dir default_path = true then some default_path else none

/-- The module-level FreeCAD setup (cli.py lines 14-59): resolve the root,
exit 1 when there is none; collect the existing `bin`/`lib`/`Mod`
subdirectories, exit 1 when there are none; try the FreeCAD imports, exit
1 when they fail.  On success returns the root and the paths added to
`sys.path`. -/
def moduleInit (sys : SysEnv) : Except Nat (String × List String) :=
  match resolveFreecadRoot sys with
  | some root =>
    let bin_path := root ++ "/bin"
    let lib_path := root ++ "/lib"
    let mod_path := root ++ "/Mod"
    let paths_to_add := [bin_path, lib_path, mod_path].filter (fun p => sys.is_dir p)
    if paths_to_add.isEmpty then Except.error 1
    else if sys.import_ok then Except.ok (root, paths_to_add)
    else Except.error 1
  | none => Except.error 1

/-- The whole script: the module-level setup, then `main` (scale-factor
computation, glob expansion, per-file loop).  When the setup exits, the
exit status is returned and no file is processed. -/
def runScript (sys : SysEnv) (fs : FS) (env : Env) (opts : CliOpts) (args : Args)
    (input_files : List String) : Except Nat (Nat × List MainAction) :=
  match moduleInit sys with
  | .error c => .error c
  | .ok _ =>
    let s := determineScales opts
    let all_files := (expandFiles fs input_files).1
    .ok (processFiles fs env s.1 s.2.1 s.2.2 args all_files)

/-! Trace observations used by the statements below. -/

/-- Whether an event is a `FreeCAD.closeDocument` call. -/
def isClose : Event → Bool
  | Event.closeDocumentCall _ => true
  | _ => false

/-- Whether an event is a `shape.transformed` call. -/
def isTransform : Event → Bool
  | Event.transformedCall _ _ => true
  | _ => false

/-- The keyword-argument lists of the `MeshPart.meshFromShape` calls in a
trace, in order. -/
def meshCalls (tr : List Event) : List (List (String × PyVal)) :=
  tr.filterMap (fun e => match e with | Event.meshFromShapeCall k => some k | _ => none)

theorem meshCalls_append (l1 l2 : List Event) :
    meshCalls (l1 ++ l2) = meshCalls l1 ++ meshCalls l2 :=
  List.filterMap_append l1 l2 _

theorem scaleStep_no_close (sx sy sz : ℚ) (s : Shape) :
    (scaleStep sx sy sz s).1.filter isClose = [] := by
  unfold scaleStep
  split <;> rfl

theorem scaleStep_no_mesh (sx sy sz : ℚ) (s : Shape) :
    meshCalls (scaleStep sx sy sz s).1 = [] := by
  unfold scaleStep
  split <;> rfl

theorem scaleStep_pos (sx sy sz : ℚ) (s : Shape) (h : sx ≠ 1 ∨ sy ≠ 1 ∨ sz ≠ 1) :
    scaleStep sx sy sz s =
      ([Event.transformedCall s ⟨sx, 0, 0, 0, 0, sy, 0, 0, 0, 0, sz, 0, 0, 0, 0, 1⟩],
        Shape.transformed s ⟨sx, 0, 0, 0, 0, sy, 0, 0, 0, 0, sz, 0, 0, 0, 0, 1⟩) := by
  unfold scaleStep
  rw [if_pos h]

theorem scaleStep_neg (sx sy sz : ℚ) (s : Shape) (h : ¬(sx ≠ 1 ∨ sy ≠ 1 ∨ sz ≠ 1)) :
    scaleStep sx sy sz s = ([], s) := by
  unfold scaleStep
  rw [if_neg h]

theorem meshStep_no_close (env : Env) (out : String)
    (kwres : Except PyExc (List (String × PyVal))) :
    (meshStep env out kwres).1.filter isClose = [] := by
  cases kwres with
  | error e => rfl
  | ok kwargs =>
    simp only [meshStep]
    cases env.meshResult kwargs with
    | error e => rfl
    | ok m =>
      dsimp only
      cases env.writeResult m out with
      | error e => rfl
      | ok u => rfl

theorem meshStep_no_transform (env : Env) (out : String)
    (kwres : Except PyExc (List (String × PyVal))) :
    (meshStep env out kwres).1.filter isTransform = [] := by
  cases kwres with
  | error e => rfl
  | ok kwargs =>
    simp only [meshStep]
    cases env.meshResult kwargs with
    | error e => rfl
    | ok m =>
      dsimp only
      cases env.writeResult m out with
      | error e => rfl
      | ok u => rfl

/-- The mesh calls a dispatch result leads to: one call with the computed
keyword arguments when the dispatch succeeded, none when it raised. -/
def okCalls : Except PyExc (List (String × PyVal)) → List (List (String × PyVal))
  | .error _ => []
  | .ok k => [k]

theorem meshStep_meshCalls (env : Env) (out : String)
    (kwres : Except PyExc (List (String × PyVal))) :
    meshCalls (meshStep env out kwres).1 = okCalls kwres := by
  cases kwres with
  | error e => rfl
  | ok kwargs =>
    simp only [meshStep]
    cases env.meshResult kwargs with
    | error e => rfl
    | ok m =>
      dsimp only
      cases env.writeResult m out with
      | error e => rfl
      | ok u => rfl

theorem mesherKwargs_shape_mem (args : Args) (s : Shape)
    (k : List (String × PyVal)) (h : mesherKwargs args s = Except.ok k) :
    ("Shape", PyVal.shape s) ∈ k := by
  unfold mesherKwargs at h
  split_ifs at h <;> simp only [Except.ok.injEq] at h <;> subst h <;> simp

theorem tryBody_err_new (env : Env) (f : String) (sx sy sz : ℚ) (args : Args)
    (e : PyExc) (h : env.newDocument = Except.error e) :
    tryBody env f sx sy sz args = ([Event.newDocumentCall], none, Except.error e) := by
  simp only [tryBody, h]

theorem tryBody_err_insert (env : Env) (f : String) (sx sy sz : ℚ) (args : Args)
    (doc : Document) (e : PyExc)
    (h1 : env.newDocument = Except.ok doc)
    (h2 : env.insertResult f doc.Name = Except.error e) :
    tryBody env f sx sy sz args =
      ([Event.newDocumentCall, Event.insertCall f doc.Name], some doc, Except.error e) := by
  simp only [tryBody, h1, h2]

theorem tryBody_empty (env : Env) (f : String) (sx sy sz : ℚ) (args : Args)
    (doc : Document)
    (h1 : env.newDocument = Except.ok doc)
    (h2 : env.insertResult f doc.Name = Except.ok []) :
    tryBody env f sx sy sz args =
      ([Event.newDocumentCall, Event.insertCall f doc.Name], some doc,
        Except.error (PyExc.runtimeError "STEP file could not be imported or is empty.")) := by
  simp only [tryBody, h1, h2]

theorem tryBody_cons (env : Env) (f : String) (sx sy sz : ℚ) (args : Args)
    (doc : Document) (obj : Object) (rest : List Object)
    (h1 : env.newDocument = Except.ok doc)
    (h2 : env.insertResult f doc.Name = Except.ok (obj :: rest)) :
    tryBody env f sx sy sz args =
      ([Event.newDocumentCall, Event.insertCall f doc.Name]
          ++ (scaleStep sx sy sz obj.Shape).1
          ++ (meshStep env (splitextRoot f ++ ".stl")
                (mesherKwargs args (scaleStep sx sy sz obj.Shape).2)).1,
        some doc,
        (meshStep env (splitextRoot f ++ ".stl")
          (mesherKwargs args (scaleStep sx sy sz obj.Shape).2)).2) := by
  simp only [tryBody, h1, h2]

theorem tryBody_no_close (env : Env) (f : String) (sx sy sz : ℚ) (args : Args) :
    (tryBody env f sx sy sz args).1.filter isClose = [] := by
  unfold tryBody
  cases env.newDocument with
  | error e => rfl
  | ok doc =>
    dsimp only
    cases env.insertResult f doc.Name with
    | error e => rfl
    | ok objects =>
      dsimp only
      cases objects with
      | nil => rfl
      | cons obj rest =>
        dsimp only
        rw [List.filter_append, List.filter_append, scaleStep_no_close, meshStep_no_close]
        rfl

theorem tryBody_docOpt (env : Env) (f : String) (sx sy sz : ℚ) (args : Args) :
    (tryBody env f sx sy sz args).2.1 = env.newDocument.toOption := by
  unfold tryBody
  cases env.newDocument with
  | error e => rfl
  | ok doc =>
    dsimp only
    cases env.insertResult f doc.Name with
    | error e => rfl
    | ok objects =>
      dsimp only
      cases objects with
      | nil => rfl
      | cons obj rest => rfl

theorem convert_returns_ok (env : Env) (f : String) (sx sy sz : ℚ) (args : Args) :
    (convert_step_to_stl env f sx sy sz args).2 = Except.ok () := by
  rcases h : tryBody env f sx sy sz args with ⟨evs, docOpt, res⟩
  simp only [convert_step_to_stl, h]
  cases res <;> cases docOpt <;> rfl

/-- The events of the `except Exception:` handler (cli.py lines 137-139):
one `logging.exception` call when the `try:` block raised, nothing
otherwise. -/
def logPart (f : String) : Except PyExc Unit → List Event
  | .ok _ => []
  | .error _ => [Event.logExceptionCall ("Could not convert file " ++ f)]

/-- The events of the `finally:` block (cli.py lines 141-145): one
`FreeCAD.closeDocument` call when a document was created, nothing
otherwise. -/
def closePart : Option Document → List Event
  | some doc => [Event.closeDocumentCall doc.Name]
  | none => []

theorem convert_trace (env : Env) (f : String) (sx sy sz : ℚ) (args : Args)
    (evs : List Event) (docOpt : Option Document) (res : Except PyExc Unit)
    (h : tryBody env f sx sy sz args = (evs, docOpt, res)) :
    (convert_step_to_stl env f sx sy sz args).1 =
      evs ++ logPart f res ++ closePart docOpt := by
  simp only [convert_step_to_stl, h]
  cases res <;> cases docOpt <;> simp [logPart, closePart]

theorem meshCalls_logPart (f : String) (r : Except PyExc Unit) :
    meshCalls (logPart f r) = [] := by
  cases r <;> rfl

theorem meshCalls_closePart (d : Option Document) :
    meshCalls (closePart d) = [] := by
  cases d <;> rfl

theorem logPart_no_transform (f : String) (r : Except PyExc Unit) :
    (logPart f r).filter isTransform = [] := by
  cases r <;> rfl

theorem closePart_no_transform (d : Option Document) :
    (closePart d).filter isTransform = [] := by
  cases d <;> rfl

/-- Under a successful document creation and a non-empty import, the mesh
calls of a whole conversion are exactly those the mesher dispatch
produces. -/
theorem convert_meshCalls_eq (env : Env) (f : String) (sx sy sz : ℚ) (args : Args)
    (doc : Document) (obj : Object) (rest : List Object)
    (h1 : env.newDocument = Except.ok doc)
    (h2 : env.insertResult f doc.Name = Except.ok (obj :: rest)) :
    meshCalls (convert_step_to_stl env f sx sy sz args).1 =
      okCalls (mesherKwargs args (scaleStep sx sy sz obj.Shape).2) := by
  have ht := tryBody_cons env f sx sy sz args doc obj rest h1 h2
  rw [convert_trace env f sx sy sz args _ _ _ ht]
  rw [meshCalls_append, meshCalls_append, meshCalls_append, meshCalls_append]
  rw [scaleStep_no_mesh, meshStep_meshCalls, meshCalls_logPart, meshCalls_closePart]
  simp [meshCalls]

/-! Concrete environments used by the witnesses. -/

/-- The document name FreeCAD gives a fresh unnamed document. -/
def sampleDoc : Document := ⟨"Unnamed"⟩

/-- A document object holding an abstract imported shape. -/
def sampleObject : Object := ⟨Shape.base 0⟩

/-- The argparse defaults: standard mesher, linear deflection 10.0,
angular deflection 5, fineness 2, all flags off. -/
def sampleArgs : Args := ⟨"standard", 10, 5, 2, false, false, false, false⟩

/-- No scaling options given on the command line. -/
def sampleOpts : CliOpts := ⟨none, none, none, none, false⟩

/-- An environment in which every external call succeeds. -/
def sampleEnv : Env :=
  { newDocument := Except.ok sampleDoc
    insertResult := fun _ _ => Except.ok [sampleObject]
    meshResult := fun _ => Except.ok 0
    writeResult := fun _ _ => Except.ok () }

/-- An environment in which `Import.insert` raises. -/
def failingEnv : Env :=
  { newDocument := Except.ok sampleDoc
    insertResult := fun _ _ => Except.error (PyExc.libraryError "parse error")
    meshResult := fun _ => Except.error (PyExc.libraryError "mesh error")
    writeResult := fun _ _ => Except.ok () }

/-- An environment in which the import leaves no objects in the
document. -/
def emptyImportEnv : Env :=
  { newDocument := Except.ok sampleDoc
    insertResult := fun _ _ => Except.ok []
    meshResult := fun _ => Except.ok 0
    writeResult := fun _ _ => Except.ok () }

/-- A filesystem holding exactly the file `a.stp`. -/
def litFS : FS :=
  { glob := fun q => if q = "a.stp" then ["a.stp"] else []
    pathExists := fun q => if q = "a.stp" then true else false }

/-- A filesystem on which the literal pattern `a.stp` and the glob pattern
`*.stp` both match the same file `a.stp`. -/
def dupFS : FS :=
  { glob := fun q => if q = "a.stp" ∨ q = "*.stp" then ["a.stp"] else []
    pathExists := fun q => if q = "a.stp" then true else false }

/-- A system environment in which no FreeCAD installation exists. -/
def badSys : SysEnv :=
  { freecad_path_env := none
    is_dir := fun _ => false
    import_ok := true }

/-- A system environment in which `FREECAD_PATH` points at a complete
installation. -/
def goodSys : SysEnv :=
  { freecad_path_env := some "/opt/freecad"
    is_dir := fun _ => true
    import_ok := true }

/-! Helper lemmas about the loops of `main`. -/

theorem processFiles_actions (fs : FS) (env : Env) (sx sy sz : ℚ) (args : Args)
    (files : List String) :
    (processFiles fs env sx sy sz args files).2 =
      files.map (fun p =>
        if fs.pathExists p = false then MainAction.warnNotFound p
        else if isStepFile p then
          MainAction.converted p (convert_step_to_stl env p sx sy sz args).1
        else MainAction.warnNotStep p) := by
  induction files with
  | nil => rfl
  | cons p rest ih =>
    cases hp : fs.pathExists p with
    | false => simp [processFiles, hp, ih]
    | true =>
      cases hs : isStepFile p with
      | true => simp [processFiles, hp, hs, ih]
      | false => simp [processFiles, hp, hs, ih]

theorem expandFiles_join (fs : FS) (patterns : List String) :
    (expandFiles fs patterns).1 = (patterns.map fs.glob).flatten := by
  induction patterns with
  | nil => rfl
  | cons p rest ih => simp [expandFiles, ih]

theorem expandFiles_warn (fs : FS) (patterns : List String) (p : String)
    (hp : p ∈ patterns) (hg : fs.glob p = []) :
    ("No files matched the pattern: " ++ p) ∈ (expandFiles fs patterns).2 := by
  induction patterns with
  | nil => cases hp
  | cons q rest ih =>
    cases hp with
    | head => simp [expandFiles, hg]
    | tail _ hmem =>
      simp only [expandFiles]
      exact List.mem_append_right _ (ih hmem)

/-! The claims. -/

/-- Claim C1: per-file error isolation.  Whatever the external calls do,
`convert_step_to_stl` returns normally (the `except Exception:` handler
swallows every exception raised by the import, scaling, meshing or export
steps), the loop in `main` produces one action for every file of the
batch, and every existing file with a STEP extension gets its conversion
invoked. -/
theorem C1_per_file_error_isolation (env : Env) (fs : FS) (file : String)
    (sx sy sz : ℚ) (args : Args) (files : List String) :
    (convert_step_to_stl env file sx sy sz args).2 = Except.ok () ∧
    (processFiles fs env sx sy sz args files).2.length = files.length ∧
    (∀ p, p ∈ files → fs.pathExists p = true → isStepFile p = true →
      MainAction.converted p (convert_step_to_stl env p sx sy sz args).1
        ∈ (processFiles fs env sx sy sz args files).2) := by
  refine ⟨convert_returns_ok env file sx sy sz args, ?_, ?_⟩
  · rw [processFiles_actions]
    simp
  · intro p hp hex hstep
    rw [processFiles_actions]
    refine List.mem_map.mpr ⟨p, hp, ?_⟩
    simp [hex, hstep]

/-- Claim C1 witness: with an environment in which `Import.insert` raises,
the conversion still returns normally and the batch loop still processes
the file (and the one after it). -/
theorem C1_per_file_error_isolation_witness :
    (convert_step_to_stl failingEnv "a.stp" 1 1 1 sampleArgs).2 = Except.ok () ∧
    MainAction.converted "a.stp" (convert_step_to_stl failingEnv "a.stp" 1 1 1 sampleArgs).1
      ∈ (processFiles litFS failingEnv 1 1 1 sampleArgs ["a.stp", "b.stp"]).2 := by
  refine ⟨(C1_per_file_error_isolation failingEnv litFS "a.stp" 1 1 1 sampleArgs
    ["a.stp", "b.stp"]).1, ?_⟩
  exact (C1_per_file_error_isolation failingEnv litFS "a.stp" 1 1 1 sampleArgs
    ["a.stp", "b.stp"]).2.2 "a.stp" (by simp) (by decide) (by decide)

/-- Claim C2: cleanup on all paths.  The trace of one conversion contains
exactly one `FreeCAD.closeDocument` call, on the document created by
`FreeCAD.newDocument`, whenever that call succeeded, and none when it
raised. -/
theorem C2_cleanup_on_all_paths (env : Env) (file : String) (sx sy sz : ℚ)
    (args : Args) :
    (convert_step_to_stl env file sx sy sz args).1.filter isClose =
      (match env.newDocument with
       | .ok doc => [Event.closeDocumentCall doc.Name]
       | .error _ => []) := by
  rcases h : tryBody env file sx sy sz args with ⟨evs, docOpt, res⟩
  have hno : evs.filter isClose = [] := by
    have h2 := tryBody_no_close env file sx sy sz args
    rw [h] at h2
    exact h2
  have hdoc : docOpt = env.newDocument.toOption := by
    have h2 := tryBody_docOpt env file sx sy sz args
    rw [h] at h2
    exact h2
  rw [convert_trace env file sx sy sz args evs docOpt res h, List.filter_append,
    List.filter_append, hno, hdoc]
  cases env.newDocument <;> cases res <;>
    simp [Except.toOption, isClose, logPart, closePart]

/-- Claim C5: candidate-file iteration.  The batch is the concatenation,
in argument order, of the glob expansions of the patterns; under the glob
semantics for literal patterns, a literal path joins the batch exactly
when it exists, and a non-existing one yields the no-match warning and no
files; a file matching several patterns can appear in the batch more than
once. -/
theorem C5_candidate_file_iteration (fs : FS) (patterns : List String)
    (H : ∀ q, hasMagic q = false →
        fs.glob q = if fs.pathExists q = true then [q] else []) :
    (expandFiles fs patterns).1 = (patterns.map fs.glob).flatten ∧
    (∀ p, p ∈ patterns → hasMagic p = false →
       (fs.pathExists p = true → p ∈ (expandFiles fs patterns).1) ∧
       (fs.pathExists p = false →
          fs.glob p = [] ∧
          ("No files matched the pattern: " ++ p) ∈ (expandFiles fs patterns).2)) ∧
    (∃ fs2 pats f, 2 ≤ ((expandFiles fs2 pats).1.count f)) := by
  refine ⟨expandFiles_join fs patterns, ?_,
    ⟨dupFS, ["a.stp", "*.stp"], "a.stp", by decide⟩⟩
  intro p hp hm
  constructor
  · intro hex
    rw [expandFiles_join]
    have hg : fs.glob p = [p] := by rw [H p hm, if_pos hex]
    refine List.mem_flatten.mpr ⟨fs.glob p, List.mem_map_of_mem _ hp, ?_⟩
    rw [hg]
    simp
  · intro hex
    have hg : fs.glob p = [] := by
      rw [H p hm, if_neg]
      simp [hex]
    exact ⟨hg, expandFiles_warn fs patterns p hp hg⟩

/-- Claim C5 witness: on a filesystem holding only `a.stp`, the batch for
the arguments `a.stp missing.stp` is the join of the glob expansions,
`a.stp` is in it, and the missing literal path produces the warning. -/
theorem C5_candidate_file_iteration_witness :
    (expandFiles litFS ["a.stp", "missing.stp"]).1 =
      (["a.stp", "missing.stp"].map litFS.glob).flatten ∧
    "a.stp" ∈ (expandFiles litFS ["a.stp", "missing.stp"]).1 ∧
    ("No files matched the pattern: " ++ "missing.stp")
      ∈ (expandFiles litFS ["a.stp", "missing.stp"]).2 := by
  have hH : ∀ q, hasMagic q = false →
      litFS.glob q = if litFS.pathExists q = true then [q] else [] := by
    intro q hq
    by_cases hqa : q = "a.stp" <;> simp [litFS, hqa]
  have h := C5_candidate_file_iteration litFS ["a.stp", "missing.stp"] hH
  exact ⟨h.1, (h.2.1 "a.stp" (by simp) (by decide)).1 (by decide),
    ((h.2.1 "missing.stp" (by simp) (by decide)).2 (by decide)).2⟩

/-- Claim C6: STEP extension filter.  The loop's actions are determined
file by file — missing paths and paths without a `.stp`/`.step` extension
(case-insensitively) are skipped with a warning — and a conversion is
invoked for a path exactly when it is in the batch, exists, and has a STEP
extension. -/
theorem C6_step_extension_filter (fs : FS) (env : Env) (sx sy sz : ℚ) (args : Args)
    (files : List String) :
    (processFiles fs env sx sy sz args files).2 =
      files.map (fun p =>
        if fs.pathExists p = false then MainAction.warnNotFound p
        else if isStepFile p then
          MainAction.converted p (convert_step_to_stl env p sx sy sz args).1
        else MainAction.warnNotStep p) ∧
    (∀ p, (∃ ev, MainAction.converted p ev ∈ (processFiles fs env sx sy sz args files).2)
        ↔ (p ∈ files ∧ fs.pathExists p = true ∧ isStepFile p = true)) := by
  refine ⟨processFiles_actions fs env sx sy sz args files, ?_⟩
  intro p
  rw [processFiles_actions]
  constructor
  · rintro ⟨ev, hev⟩
    obtain ⟨q, hq, hact⟩ := List.mem_map.mp hev
    cases hpe : fs.pathExists q with
    | false => simp [hpe] at hact
    | true =>
      cases hst : isStepFile q with
      | false => simp [hpe, hst] at hact
      | true =>
        simp [hpe, hst] at hact
        obtain ⟨rfl, rfl⟩ := hact
        exact ⟨hq, hpe, hst⟩
  · rintro ⟨hp, h1, h2⟩
    exact ⟨(convert_step_to_stl env p sx sy sz args).1,
      List.mem_map.mpr ⟨p, hp, by simp [h1, h2]⟩⟩

/-- Claim C8: the final tally counts attempted conversions.  The
`success_count` returned by the loop equals the number of existing
STEP-extension entries of the batch (with multiplicity), for every
environment of conversion outcomes — conversion failures do not change
it. -/
theorem C8_success_count_counts_attempts (fs : FS) (env : Env) (sx sy sz : ℚ)
    (args : Args) (files : List String) :
    (processFiles fs env sx sy sz args files).1 =
      (files.filter (fun p => fs.pathExists p && isStepFile p)).length := by
  induction files with
  | nil => rfl
  | cons p rest ih =>
    cases hp : fs.pathExists p with
    | false => simp [processFiles, hp, ih]
    | true =>
      cases hs : isStepFile p with
      | true => simp [processFiles, hp, hs, ih]
      | false => simp [processFiles, hp, hs, ih]

/-- Claim C9: scaling-flag precedence.  The factors are the layered
overrides: default `1.0`, replaced by `0.001` on every axis by
`--mm_to_m`, replaced uniformly by `--scale` when given, and finally each
axis replaced by its own `--scale_x`/`--scale_y`/`--scale_z` when
given. -/
theorem C9_scaling_flag_precedence (opts : CliOpts) :
    determineScales opts =
      (opts.scale_x.getD (opts.scale.getD (if opts.mm_to_m then 1 / 1000 else 1)),
       opts.scale_y.getD (opts.scale.getD (if opts.mm_to_m then 1 / 1000 else 1)),
       opts.scale_z.getD (opts.scale.getD (if opts.mm_to_m then 1 / 1000 else 1))) := by
  rcases opts with ⟨s, x, y, z, m⟩
  cases s <;> cases x <;> cases y <;> cases z <;> cases m <;> rfl

/-- Claim C3: optional axis scaling before tessellation.  When at least
one factor differs from `1.0`, the trace begins with the document
creation, the import, and the `shape.transformed` call with the diagonal
matrix `Matrix(sx,0,0,0, 0,sy,0,0, 0,0,sz,0, 0,0,0,1)` — before anything
else, in particular before any `meshFromShape` call — and every
`meshFromShape` call receives the transformed shape; when all three
factors are `1.0` no transform call appears anywhere in the trace and the
mesher receives the unmodified imported shape. -/
theorem C3_optional_axis_scaling (env : Env) (file : String) (sx sy sz : ℚ)
    (args : Args) (doc : Document) (obj : Object) (rest : List Object)
    (h1 : env.newDocument = Except.ok doc)
    (h2 : env.insertResult file doc.Name = Except.ok (obj :: rest)) :
    ((sx ≠ 1 ∨ sy ≠ 1 ∨ sz ≠ 1) →
      (∃ tail, (convert_step_to_stl env file sx sy sz args).1 =
        Event.newDocumentCall :: Event.insertCall file doc.Name ::
          Event.transformedCall obj.Shape
            ⟨sx, 0, 0, 0, 0, sy, 0, 0, 0, 0, sz, 0, 0, 0, 0, 1⟩ :: tail) ∧
      (∀ k, k ∈ meshCalls (convert_step_to_stl env file sx sy sz args).1 →
        ("Shape", PyVal.shape (Shape.transformed obj.Shape
          ⟨sx, 0, 0, 0, 0, sy, 0, 0, 0, 0, sz, 0, 0, 0, 0, 1⟩)) ∈ k)) ∧
    (sx = 1 ∧ sy = 1 ∧ sz = 1 →
      ((convert_step_to_stl env file sx sy sz args).1.filter isTransform = [] ∧
       (∀ k, k ∈ meshCalls (convert_step_to_stl env file sx sy sz args).1 →
         ("Shape", PyVal.shape obj.Shape) ∈ k))) := by
  constructor
  · intro hs
    have hsc := scaleStep_pos sx sy sz obj.Shape hs
    have ht := tryBody_cons env file sx sy sz args doc obj rest h1 h2
    rw [hsc] at ht
    constructor
    · refine ⟨(meshStep env (splitextRoot file ++ ".stl")
          (mesherKwargs args (Shape.transformed obj.Shape
            ⟨sx, 0, 0, 0, 0, sy, 0, 0, 0, 0, sz, 0, 0, 0, 0, 1⟩))).1
        ++ logPart file (meshStep env (splitextRoot file ++ ".stl")
          (mesherKwargs args (Shape.transformed obj.Shape
            ⟨sx, 0, 0, 0, 0, sy, 0, 0, 0, 0, sz, 0, 0, 0, 0, 1⟩))).2
        ++ closePart (some doc), ?_⟩
      rw [convert_trace env file sx sy sz args _ _ _ ht]
      simp
    · intro k hk
      rw [convert_meshCalls_eq env file sx sy sz args doc obj rest h1 h2] at hk
      cases hkw : mesherKwargs args (scaleStep sx sy sz obj.Shape).2 with
      | error e =>
        rw [hkw] at hk
        simp [okCalls] at hk
      | ok kw =>
        rw [hkw] at hk
        simp [okCalls] at hk
        subst hk
        have h3 := mesherKwargs_shape_mem args _ _ hkw
        rw [hsc] at h3
        exact h3
  · rintro ⟨rfl, rfl, rfl⟩
    have hsc := scaleStep_neg 1 1 1 obj.Shape (by simp)
    have ht := tryBody_cons env file 1 1 1 args doc obj rest h1 h2
    rw [hsc] at ht
    constructor
    · rw [convert_trace env file 1 1 1 args _ _ _ ht]
      simp only [List.filter_append, meshStep_no_transform, logPart_no_transform,
        closePart_no_transform, List.append_nil]
      rfl
    · intro k hk
      rw [convert_meshCalls_eq env file 1 1 1 args doc obj rest h1 h2] at hk
      cases hkw : mesherKwargs args (scaleStep 1 1 1 obj.Shape).2 with
      | error e =>
        rw [hkw] at hk
        simp [okCalls] at hk
      | ok kw =>
        rw [hkw] at hk
        simp [okCalls] at hk
        subst hk
        have h3 := mesherKwargs_shape_mem args _ _ hkw
        rw [hsc] at h3
        exact h3

/-- Claim C3 witness: with factors `0.001` the trace starts with the
transform call on the imported shape; with factors `1.0` no transform call
occurs. -/
theorem C3_optional_axis_scaling_witness :
    (∃ tail,
      (convert_step_to_stl sampleEnv "a.stp" (1/1000) (1/1000) (1/1000) sampleArgs).1 =
        Event.newDocumentCall :: Event.insertCall "a.stp" sampleDoc.Name ::
          Event.transformedCall sampleObject.Shape
            ⟨1/1000, 0, 0, 0, 0, 1/1000, 0, 0, 0, 0, 1/1000, 0, 0, 0, 0, 1⟩ :: tail) ∧
    (convert_step_to_stl sampleEnv "a.stp" 1 1 1 sampleArgs).1.filter isTransform = [] := by
  have hsc := C3_optional_axis_scaling sampleEnv "a.stp" (1/1000) (1/1000) (1/1000)
    sampleArgs sampleDoc sampleObject [] rfl rfl
  have hun := C3_optional_axis_scaling sampleEnv "a.stp" 1 1 1 sampleArgs
    sampleDoc sampleObject [] rfl rfl
  exact ⟨(hsc.1 (Or.inl (by norm_num))).1, (hun.2 ⟨rfl, rfl, rfl⟩).1⟩

/-- Claim C4: mesher-parameter dispatch.  The keyword arguments of the
`meshFromShape` call are a function of `args.mesher` alone — `standard`
passes LinearDeflection, AngularDeflection converted from degrees to
radians by multiplying with 3.141592653589793/180.0, and Relative=True;
`mefisto` passes Fineness/SecondOrder/Optimize/AllowQuad; `netgen` those
four plus Tessellator=1 and CheckChart — and any other mesher value makes
the dispatch raise `ValueError` (with no mesh call), a branch unreachable
for the argparse choices, and the exception is swallowed by the per-file
handler. -/
theorem C4_mesher_parameter_dispatch (env : Env) (file : String) (sx sy sz : ℚ)
    (args : Args) (doc : Document) (obj : Object) (rest : List Object)
    (h1 : env.newDocument = Except.ok doc)
    (h2 : env.insertResult file doc.Name = Except.ok (obj :: rest)) :
    ∃ s : Shape,
      (args.mesher = "standard" →
        meshCalls (convert_step_to_stl env file sx sy sz args).1 =
          [[("Shape", PyVal.shape s),
            ("LinearDeflection", PyVal.float args.linear_deflection),
            ("AngularDeflection",
              PyVal.float (args.angular_deflection * (piLit / 180))),
            ("Relative", PyVal.bool true)]]) ∧
      (args.mesher = "mefisto" →
        meshCalls (convert_step_to_stl env file sx sy sz args).1 =
          [[("Shape", PyVal.shape s),
            ("Fineness", PyVal.int args.fineness),
            ("SecondOrder", PyVal.bool args.second_order),
            ("Optimize", PyVal.bool args.optimize),
            ("AllowQuad", PyVal.bool args.allow_quad)]]) ∧
      (args.mesher = "netgen" →
        meshCalls (convert_step_to_stl env file sx sy sz args).1 =
          [[("Shape", PyVal.shape s),
            ("Tessellator", PyVal.int 1),
            ("Fineness", PyVal.int args.fineness),
            ("SecondOrder", PyVal.bool args.second_order),
            ("Optimize", PyVal.bool args.optimize),
            ("AllowQuad", PyVal.bool args.allow_quad),
            ("CheckChart", PyVal.bool args.check_chart)]]) ∧
      (args.mesher ≠ "standard" → args.mesher ≠ "mefisto" → args.mesher ≠ "netgen" →
        meshCalls (convert_step_to_stl env file sx sy sz args).1 = [] ∧
        (tryBody env file sx sy sz args).2.2 =
          Except.error (PyExc.valueError ("Unknown mesher: " ++ args.mesher)) ∧
        (convert_step_to_stl env file sx sy sz args).2 = Except.ok ()) := by
  refine ⟨(scaleStep sx sy sz obj.Shape).2, ?_, ?_, ?_, ?_⟩
  · intro h
    have hkw : mesherKwargs args (scaleStep sx sy sz obj.Shape).2 =
        Except.ok [("Shape", PyVal.shape (scaleStep sx sy sz obj.Shape).2),
          ("LinearDeflection", PyVal.float args.linear_deflection),
          ("AngularDeflection", PyVal.float (args.angular_deflection * (piLit / 180))),
          ("Relative", PyVal.bool true)] := by
      unfold mesherKwargs
      rw [h]
      rfl
    rw [convert_meshCalls_eq env file sx sy sz args doc obj rest h1 h2, hkw]
    rfl
  · intro h
    have hkw : mesherKwargs args (scaleStep sx sy sz obj.Shape).2 =
        Except.ok [("Shape", PyVal.shape (scaleStep sx sy sz obj.Shape).2),
          ("Fineness", PyVal.int args.fineness),
          ("SecondOrder", PyVal.bool args.second_order),
          ("Optimize", PyVal.bool args.optimize),
          ("AllowQuad", PyVal.bool args.allow_quad)] := by
      unfold mesherKwargs
      rw [h]
      rfl
    rw [convert_meshCalls_eq env file sx sy sz args doc obj rest h1 h2, hkw]
    rfl
  · intro h
    have hkw : mesherKwargs args (scaleStep sx sy sz obj.Shape).2 =
        Except.ok [("Shape", PyVal.shape (scaleStep sx sy sz obj.Shape).2),
          ("Tessellator", PyVal.int 1),
          ("Fineness", PyVal.int args.fineness),
          ("SecondOrder", PyVal.bool args.second_order),
          ("Optimize", PyVal.bool args.optimize),
          ("AllowQuad", PyVal.bool args.allow_quad),
          ("CheckChart", PyVal.bool args.check_chart)] := by
      unfold mesherKwargs
      rw [h]
      rfl
    rw [convert_meshCalls_eq env file sx sy sz args doc obj rest h1 h2, hkw]
    rfl
  · intro hstd hmef hnet
    have hkw : mesherKwargs args (scaleStep sx sy sz obj.Shape).2 =
        Except.error (PyExc.valueError ("Unknown mesher: " ++ args.mesher)) := by
      unfold mesherKwargs
      rw [if_neg hstd, if_neg hmef, if_neg hnet]
    refine ⟨?_, ?_, convert_returns_ok env file sx sy sz args⟩
    · rw [convert_meshCalls_eq env file sx sy sz args doc obj rest h1 h2, hkw]
      rfl
    · rw [tryBody_cons env file sx sy sz args doc obj rest h1 h2]
      rw [hkw]
      rfl

/-- Claim C4 witness: with the default arguments (standard mesher, linear
deflection 10.0, angular deflection 5 degrees) the single mesh call of a
successful conversion carries exactly the standard-mesher keyword
arguments. -/
theorem C4_mesher_parameter_dispatch_witness :
    ∃ s : Shape,
      meshCalls (convert_step_to_stl sampleEnv "a.stp" 1 1 1 sampleArgs).1 =
        [[("Shape", PyVal.shape s),
          ("LinearDeflection", PyVal.float 10),
          ("AngularDeflection", PyVal.float (5 * (piLit / 180))),
          ("Relative", PyVal.bool true)]] := by
  obtain ⟨s, hstd, -, -, -⟩ := C4_mesher_parameter_dispatch sampleEnv "a.stp" 1 1 1
    sampleArgs sampleDoc sampleObject [] rfl rfl
  exact ⟨s, hstd rfl⟩

/-- Claim C10: guarded access to the imported shape.  When the import
leaves no objects in the document, the `try:` block raises the
`RuntimeError` with the exact message instead of indexing the empty list:
the trace consists of only the document creation, the import, the error
log and the document close — no transform, mesh or write call — and the
exception is caught by the per-file handler. -/
theorem C10_guarded_shape_access (env : Env) (file : String) (sx sy sz : ℚ)
    (args : Args) (doc : Document)
    (h1 : env.newDocument = Except.ok doc)
    (h2 : env.insertResult file doc.Name = Except.ok []) :
    (tryBody env file sx sy sz args).2.2 =
      Except.error (PyExc.runtimeError "STEP file could not be imported or is empty.") ∧
    (convert_step_to_stl env file sx sy sz args).1 =
      [Event.newDocumentCall, Event.insertCall file doc.Name,
       Event.logExceptionCall ("Could not convert file " ++ file),
       Event.closeDocumentCall doc.Name] ∧
    (convert_step_to_stl env file sx sy sz args).2 = Except.ok () := by
  have ht := tryBody_empty env file sx sy sz args doc h1 h2
  refine ⟨by rw [ht], ?_, convert_returns_ok env file sx sy sz args⟩
  rw [convert_trace env file sx sy sz args _ _ _ ht]
  rfl

/-- Claim C10 witness: an environment whose import yields no objects
produces exactly the guarded RuntimeError, and the conversion still
returns normally. -/
theorem C10_guarded_shape_access_witness :
    (tryBody emptyImportEnv "a.stp" 1 1 1 sampleArgs).2.2 =
      Except.error (PyExc.runtimeError "STEP file could not be imported or is empty.") ∧
    (convert_step_to_stl emptyImportEnv "a.stp" 1 1 1 sampleArgs).2 = Except.ok () := by
  have h := C10_guarded_shape_access emptyImportEnv "a.stp" 1 1 1 sampleArgs sampleDoc
    rfl rfl
  exact ⟨h.1, h.2.2⟩

/-- Claim C7: CAD runtime location is a precondition.  The root resolves
first from a non-empty `FREECAD_PATH` naming an existing directory, else
from the hardcoded default; and whenever no root resolves, or the resolved
root has none of the `bin`/`lib`/`Mod` subdirectories, or the FreeCAD
imports fail, the whole script exits with status 1 without processing any
file. -/
theorem C7_cad_runtime_precondition (sys : SysEnv) (fs : FS) (env : Env)
    (opts : CliOpts) (args : Args) (files : List String) :
    (∀ p, sys.freecad_path_env = some p → p ≠ "" → sys.is_dir p = true →
      resolveFreecadRoot sys = some p) ∧
    ((∀ p, sys.freecad_path_env = some p → p = "" ∨ sys.is_dir p = false) →
      sys.is_dir default_path = true →
      resolveFreecadRoot sys = some default_path) ∧
    ((resolveFreecadRoot sys = none ∨
      (∃ root, resolveFreecadRoot sys = some root ∧
        sys.is_dir (root ++ "/bin") = false ∧
        sys.is_dir (root ++ "/lib") = false ∧
        sys.is_dir (root ++ "/Mod") = false) ∨
      sys.import_ok = false) →
      runScript sys fs env opts args files = Except.error 1) := by
  refine ⟨?_, ?_, ?_⟩
  · intro p hp hne hdir
    unfold resolveFreecadRoot
    rw [hp]
    dsimp only
    rw [if_pos (And.intro hne hdir)]
  · intro hbad hdef
    unfold resolveFreecadRoot
    cases hp : sys.freecad_path_env with
    | none =>
      dsimp only
      rw [if_pos hdef]
    | some p =>
      have hb := hbad p hp
      have hcond : ¬(p ≠ "" ∧ sys.is_dir p = true) := by
        rcases hb with hb | hb
        · intro hc
          exact hc.1 hb
        · intro hc
          rw [hb] at hc
          exact absurd hc.2 (by simp)
      dsimp only
      rw [if_neg hcond, if_pos hdef]
  · intro h
    have hmi : moduleInit sys = Except.error 1 := by
      rcases h with hr | ⟨root, hr, hb, hl, hm⟩ | hio
      · unfold moduleInit
        rw [hr]
      · unfold moduleInit
        rw [hr]
        simp [List.filter, hb, hl, hm]
      · unfold moduleInit
        cases hr : resolveFreecadRoot sys with
        | none => rfl
        | some root =>
          dsimp only
          split
          · rfl
          · simp [hio]
    unfold runScript
    rw [hmi]

/-- Claim C7 witness: a system environment whose `FREECAD_PATH` names an
existing directory resolves to it, and one with no FreeCAD installation
makes the script exit with status 1. -/
theorem C7_cad_runtime_precondition_witness :
    resolveFreecadRoot goodSys = some "/opt/freecad" ∧
    runScript badSys litFS sampleEnv sampleOpts sampleArgs ["a.stp"] = Except.error 1 := by
  refine ⟨(C7_cad_runtime_precondition goodSys litFS sampleEnv sampleOpts sampleArgs
    ["a.stp"]).1 "/opt/freecad" rfl (by decide) rfl, ?_⟩
  exact (C7_cad_runtime_precondition badSys litFS sampleEnv sampleOpts sampleArgs
    ["a.stp"]).2.2 (Or.inl rfl)

end Stp2Stl
